import Mathlib

set_option maxHeartbeats 1000000

/-!
Shallow embedding of qiboml's expectation-value differentiation bridge
(src/qiboml/operations/expectation.py) and of the Keras Model wrapper
(src/qiboml/models/keras.py).

External collaborators (the qibo execution backend, the Hamiltonian
observable, the differentiation rule) are out of scope of the repository
and are modelled as parameters: records of pure functions over abstract
types `R` (scalars), `M` (operator matrices), `St` (states) and `Init`
(initial states).  Every call the module makes to an external collaborator
(a backend circuit execution, a differentiation-rule invocation) is
recorded as an `Event` in an event log returned alongside the value, so
that claims about which external calls happen, how many, and with which
execution context are statable.  The `[:, None]` reshape in the torch
backward is a shape annotation (a (P,1) column of the same P scalars); the
gradient content is modelled as the flat list of its entries.
-/

/-- The frontend backend owning the observable (`observable.backend` in the
source); the dispatcher branches on `isinstance(frontend, TensorflowBackend)`
and `isinstance(frontend, PyTorchBackend)`. -/
inductive Frontend where
  | tensorflow : Frontend
  | pytorch : Frontend
  | numpy : Frontend
  | other : String → Frontend
deriving DecidableEq

/-- A qibo Hamiltonian observable: an owning frontend backend and an opaque
matrix representation (`observable.matrix`). -/
structure Hamiltonian (R M : Type) where
  backend : Frontend
  matrix : M

/-- A qibo circuit, as used by expectation.py: only its flat ordered list of
trainable parameter values (`circuit.get_parameters()`) is consumed. -/
structure Circuit (R : Type) where
  get_parameters : List R

/-- The object returned by `exec_backend.execute_circuit(...)`: exposes
`.state()` and `.expectation_from_samples(observable)`. -/
structure ExecResult (R M St : Type) where
  state : St
  expectation_from_samples : Hamiltonian R M → R

/-- The execution backend capability.  `execute_circuit` takes the circuit,
the optional initial state and the optional `nshots` keyword (`none` when the
call site omits it). -/
structure Backend (R M St Init : Type) where
  execute_circuit : Circuit R → Option Init → Option Int → ExecResult R M St
  cast : M → M
  calculate_expectation_state : M → St → Bool → R

/-- The keyword arguments the bridges pass to the differentiation rule:
`dict(hamiltonian=observable, circuit=circuit, initial_state=initial_state,
exec_backend=exec_backend, nshots=nshots)`.  These five keywords are the
whole contract; there is no `parameter_index` keyword in the source. -/
structure RuleKwargs (R M St Init : Type) where
  hamiltonian : Hamiltonian R M
  circuit : Circuit R
  initial_state : Option Init
  exec_backend : Backend R M St Init
  nshots : Option Int

/-- A differentiation rule: one call returns the full gradient vector. -/
def DiffRule (R M St Init : Type) : Type :=
  RuleKwargs R M St Init → List R

/-- Observable external calls made by the module: a backend circuit
execution (with the initial state and `nshots` passed at that call site) or
a differentiation-rule invocation (with its keyword record). -/
inductive Event (R M St Init : Type) where
  | execCircuit (circuit : Circuit R) (initial_state : Option Init)
      (nshots : Option Int) : Event R M St Init
  | ruleCall (kwargs : RuleKwargs R M St Init) : Event R M St Init

/-- Recognizer for differentiation-rule invocation events. -/
def Event.isRuleCall {R M St Init : Type} : Event R M St Init → Bool
  | Event.ruleCall _ => true
  | _ => false

/-- Recognizer for backend circuit-execution events. -/
def Event.isExec {R M St Init : Type} : Event R M St Init → Bool
  | Event.execCircuit _ _ _ => true
  | _ => false

/-- `_exact(observable, circuit, initial_state, exec_backend)`: executes the
circuit (no `nshots` keyword) and computes
`calculate_expectation_state(cast(observable.matrix), state, normalize=False)`. -/
def _exact {R M St Init : Type} (observable : Hamiltonian R M)
    (circuit : Circuit R) (initial_state : Option Init)
    (exec_backend : Backend R M St Init) : R × List (Event R M St Init) :=
  (exec_backend.calculate_expectation_state
      (exec_backend.cast observable.matrix)
      (exec_backend.execute_circuit circuit initial_state none).state
      false,
   [Event.execCircuit circuit initial_state none])

/-- `_with_shots(observable, circuit, initial_state, nshots, exec_backend)`:
executes the circuit with the given `nshots` and computes
`expectation_from_samples(observable)`. -/
def _with_shots {R M St Init : Type} (observable : Hamiltonian R M)
    (circuit : Circuit R) (initial_state : Option Init) (nshots : Int)
    (exec_backend : Backend R M St Init) : R × List (Event R M St Init) :=
  ((exec_backend.execute_circuit circuit initial_state (some nshots)).expectation_from_samples
      observable,
   [Event.execCircuit circuit initial_state (some nshots)])

/-- The `grad(upstream)` closure inside `_with_tf._expectation`:
`tf.unstack(upstream * tf.stack(differentiation_rule(**kwargs)))`, one
rule invocation. -/
def tf_grad {R M St Init : Type} [Mul R] (differentiation_rule : DiffRule R M St Init)
    (kwargs : RuleKwargs R M St Init) (upstream : R) :
    List R × List (Event R M St Init) :=
  ((differentiation_rule kwargs).map (fun x => upstream * x),
   [Event.ruleCall kwargs])

/-- A `tf.custom_gradient` node: the forward value together with the
registered gradient function. -/
structure TFNode (R M St Init : Type) where
  value : R
  grad : R → List R × List (Event R M St Init)

/-- The `_expectation(params)` closure of `_with_tf`: the `params` argument
is received but never read by the forward computation; the forward value is
`_exact(...)` when `nshots is None`, else `_with_shots(...)`; the returned
gradient function is `grad`, closing over the keyword record
`(hamiltonian, circuit, initial_state, exec_backend, nshots)`. -/
def tf_expectation {R M St Init : Type} [Mul R] (params : List R)
    (observable : Hamiltonian R M) (circuit : Circuit R)
    (initial_state : Option Init) (nshots : Option Int)
    (exec_backend : Backend R M St Init)
    (differentiation_rule : DiffRule R M St Init) :
    TFNode R M St Init × List (Event R M St Init) :=
  let _ := params
  let kwargs : RuleKwargs R M St Init :=
    ⟨observable, circuit, initial_state, exec_backend, nshots⟩
  match nshots with
  | none =>
    let r := _exact observable circuit initial_state exec_backend
    (⟨r.1, tf_grad differentiation_rule kwargs⟩, r.2)
  | some n =>
    let r := _with_shots observable circuit initial_state n exec_backend
    (⟨r.1, tf_grad differentiation_rule kwargs⟩, r.2)

/-- `_with_tf`: builds `params = circuit.get_parameters()` and evaluates the
`tf.custom_gradient`-decorated `_expectation` at `params` (eager forward
runs immediately; the node's gradient function is retained). -/
def _with_tf {R M St Init : Type} [Mul R] (observable : Hamiltonian R M)
    (circuit : Circuit R) (initial_state : Option Init) (nshots : Option Int)
    (exec_backend : Backend R M St Init)
    (differentiation_rule : DiffRule R M St Init) :
    TFNode R M St Init × List (Event R M St Init) :=
  tf_expectation circuit.get_parameters observable circuit initial_state
    nshots exec_backend differentiation_rule

/-- The context object saved by `_TorchDifferentiableExpectation.forward`:
`ctx.save_for_backward(params)` plus the attributes set on `ctx`. -/
structure TorchCtx (R M St Init : Type) where
  params : List R
  observable : Hamiltonian R M
  circuit : Circuit R
  initial_state : Option Init
  nshots : Option Int
  exec_backend : Backend R M St Init
  differentiation_rule : DiffRule R M St Init

/-- `_TorchDifferentiableExpectation.forward`: saves all inputs into the
context, computes the expectation value via `exec_backend` (exact branch
when `nshots is None`, sampled branch otherwise) and returns the detached
scalar.  The `params` tensor is saved but not read by the value computation. -/
def torch_forward {R M St Init : Type} (params : List R)
    (observable : Hamiltonian R M) (circuit : Circuit R)
    (initial_state : Option Init) (nshots : Option Int)
    (exec_backend : Backend R M St Init)
    (differentiation_rule : DiffRule R M St Init) :
    (R × TorchCtx R M St Init) × List (Event R M St Init) :=
  let ctx : TorchCtx R M St Init :=
    ⟨params, observable, circuit, initial_state, nshots, exec_backend,
     differentiation_rule⟩
  match nshots with
  | none =>
    ((exec_backend.calculate_expectation_state
        (exec_backend.cast observable.matrix)
        (exec_backend.execute_circuit circuit initial_state none).state
        false,
      ctx),
     [Event.execCircuit circuit initial_state none])
  | some n =>
    (((exec_backend.execute_circuit circuit initial_state (some n)).expectation_from_samples
        observable,
      ctx),
     [Event.execCircuit circuit initial_state (some n)])

/-- `_TorchDifferentiableExpectation.backward`: reloads the saved context,
rebuilds the keyword record, makes a single differentiation-rule call, scales
by `grad_output` (the `[:, None]` reshape keeps the same P scalars), and
returns one entry per forward input: the gradient for `params` followed by
`None` for each of the six non-differentiable inputs. -/
def torch_backward {R M St Init : Type} [Mul R] (ctx : TorchCtx R M St Init)
    (grad_output : R) :
    List (Option (List R)) × List (Event R M St Init) :=
  let kwargs : RuleKwargs R M St Init :=
    ⟨ctx.observable, ctx.circuit, ctx.initial_state, ctx.exec_backend,
     ctx.nshots⟩
  let gradients := (ctx.differentiation_rule kwargs).map
    (fun x => grad_output * x)
  ([some gradients, none, none, none, none, none, none],
   [Event.ruleCall kwargs])

/-- `_with_torch`: builds `params = torch.tensor(circuit.get_parameters())`
and applies `_TorchDifferentiableExpectation` (the forward pass runs
immediately; the saved context drives a later backward).  The `kwargs` dict
built inside `_with_torch` in the source is dead code: `apply` receives the
raw arguments and `backward` rebuilds the keywords from the context. -/
def _with_torch {R M St Init : Type} (observable : Hamiltonian R M)
    (circuit : Circuit R) (initial_state : Option Init) (nshots : Option Int)
    (exec_backend : Backend R M St Init)
    (differentiation_rule : DiffRule R M St Init) :
    (R × TorchCtx R M St Init) × List (Event R M St Init) :=
  torch_forward circuit.get_parameters observable circuit initial_state
    nshots exec_backend differentiation_rule

/-- The only error this module raises itself:
`raise_error(ValueError, f" Interface for {frontend} is not supported.")`. -/
inductive QibomlError where
  | interfaceNotSupported (frontend : Frontend) : QibomlError
deriving DecidableEq

/-- What the dispatcher returns: a plain scalar (no gradient node), a
TensorFlow custom-gradient node, or a torch tensor attached to a
`_TorchDifferentiableExpectation` node (value plus saved context). -/
inductive ExpResult (R M St Init : Type) where
  | plain (value : R) : ExpResult R M St Init
  | tfNode (node : TFNode R M St Init) : ExpResult R M St Init
  | torchNode (value : R) (ctx : TorchCtx R M St Init) : ExpResult R M St Init

/-- The `expectation` dispatcher: reads `frontend = observable.backend`;
with a differentiation rule it routes to `_with_tf` / `_with_torch` or
raises for an unsupported frontend; without one it routes to `_exact` when
`nshots is None`, else to `_with_shots`. -/
def expectation {R M St Init : Type} [Mul R] (observable : Hamiltonian R M)
    (circuit : Circuit R) (initial_state : Option Init) (nshots : Option Int)
    (exec_backend : Backend R M St Init)
    (differentiation_rule : Option (DiffRule R M St Init)) :
    Except QibomlError (ExpResult R M St Init) × List (Event R M St Init) :=
  let frontend := observable.backend
  match differentiation_rule with
  | some rule =>
    match frontend with
    | Frontend.tensorflow =>
      let r := _with_tf observable circuit initial_state nshots exec_backend rule
      (Except.ok (ExpResult.tfNode r.1), r.2)
    | Frontend.pytorch =>
      let r := _with_torch observable circuit initial_state nshots exec_backend rule
      (Except.ok (ExpResult.torchNode r.1.1 r.1.2), r.2)
    | f => (Except.error (QibomlError.interfaceNotSupported f), [])
  | none =>
    match nshots with
    | none =>
      let r := _exact observable circuit initial_state exec_backend
      (Except.ok (ExpResult.plain r.1), r.2)
    | some n =>
      let r := _with_shots observable circuit initial_state n exec_backend
      (Except.ok (ExpResult.plain r.1), r.2)

namespace Keras

/-- A qiboml quantum-circuit layer as seen by keras.Model: its circuit's
qubit count, its `forward` method, and whether it is an instance of
`QuantumDecodingLayer`. -/
structure Layer (R : Type) where
  nqubits : Nat
  forward : List R → List R
  isDecoding : Bool

/-- The RuntimeErrors `Model.__init__` can raise (plus the IndexError the
`layers[0]` access raises on an empty list). -/
inductive ModelError where
  | emptyLayers : ModelError
  | qubitMismatch (got expected : Nat) : ModelError
  | lastNotDecoding : ModelError
deriving DecidableEq

/-- The loop `for layer in layers[1:]` of `Model.__init__`: raises at the
first layer whose qubit count differs from the first layer's. -/
def checkQubits {R : Type} (expected : Nat) :
    List (Layer R) → Except ModelError Unit
  | [] => Except.ok ()
  | l :: rest =>
    if l.nqubits ≠ expected then
      Except.error (ModelError.qubitMismatch l.nqubits expected)
    else checkQubits expected rest

/-- The keras Model wrapper: an ordered list of quantum-circuit layers. -/
structure Model (R : Type) where
  layers : List (Layer R)

/-- `Model.__init__(layers)`: reads `layers[0].circuit.nqubits`, checks every
later layer's qubit count against it, then requires the last layer to be a
`QuantumDecodingLayer`; each violation raises RuntimeError. -/
def Model.init {R : Type} (layers : List (Layer R)) :
    Except ModelError (Model R) :=
  match layers with
  | [] => Except.error ModelError.emptyLayers
  | l0 :: rest =>
    match checkQubits l0.nqubits rest with
    | Except.error e => Except.error e
    | Except.ok _ =>
      if ((l0 :: rest).getLast (List.cons_ne_nil l0 rest)).isDecoding then
        Except.ok ⟨l0 :: rest⟩
      else Except.error ModelError.lastNotDecoding

/-- `Model.call(x)`: `for layer in self.layers[:-1]: x = layer.forward(x)`. -/
def Model.call {R : Type} (m : Model R) (x : List R) : List R :=
  m.layers.dropLast.foldl (fun acc l => l.forward acc) x

end Keras

/-!
Concrete instantiation over the integers, used by the witness and
counterexample theorems: a backend whose state is the integer 9, whose
sampled expectation is 42 and whose exact expectation is `state + 1`.
-/

/-- Concrete backend over the integers for witnesses. -/
def cBackend : Backend Int Int Int Int :=
  ⟨fun _c _i _n => ⟨9, fun _o => 42⟩, fun m => m, fun _h s _nrm => s + 1⟩

/-- Concrete observable owned by the TensorFlow frontend. -/
def cObsTF : Hamiltonian Int Int := ⟨Frontend.tensorflow, 5⟩

/-- Concrete observable owned by the PyTorch frontend. -/
def cObsTorch : Hamiltonian Int Int := ⟨Frontend.pytorch, 5⟩

/-- Concrete observable owned by the (unsupported) numpy frontend. -/
def cObsNp : Hamiltonian Int Int := ⟨Frontend.numpy, 5⟩

/-- Concrete circuit with two trainable parameters. -/
def cCirc2 : Circuit Int := ⟨[1, 2]⟩

/-- Concrete circuit with zero trainable parameters. -/
def cCirc0 : Circuit Int := ⟨[]⟩

/-- Concrete differentiation rule returning the two-vector [3, 4]. -/
def cRule2 : DiffRule Int Int Int Int := fun _ => [3, 4]

/-- Concrete differentiation rule returning the empty vector. -/
def cRule0 : DiffRule Int Int Int Int := fun _ => []

/-- Concrete differentiation rule returning the mixed-sign vector [0, 1, -1]. -/
def cRuleMixed : DiffRule Int Int Int Int := fun _ => [0, 1, -1]

/-- Concrete saved torch context for the two-parameter circuit. -/
def cCtx2 : TorchCtx Int Int Int Int :=
  ⟨[1, 2], cObsTorch, cCirc2, none, none, cBackend, cRule2⟩

/-- Concrete saved torch context for the zero-parameter circuit. -/
def cCtx0 : TorchCtx Int Int Int Int :=
  ⟨[], cObsTorch, cCirc0, none, some 10, cBackend, cRule0⟩

/-- C1 counterexample: for the concrete two-parameter circuit, the backward
pass of both bridges makes exactly ONE differentiation-rule call, not one
call per parameter index, so the number of rule calls differs from P = 2. -/
theorem c1_counterexample :
    ((torch_backward cCtx2 1).2.countP Event.isRuleCall = 1 ∧
      cCtx2.circuit.get_parameters.length = 2 ∧
      ¬ ((torch_backward cCtx2 1).2.countP Event.isRuleCall =
          cCtx2.circuit.get_parameters.length)) ∧
    ((((_with_tf cObsTF cCirc2 none none cBackend cRule2).1.grad 1).2.countP
        Event.isRuleCall = 1) ∧
      ¬ ((((_with_tf cObsTF cCirc2 none none cBackend cRule2).1.grad 1).2.countP
          Event.isRuleCall) = cCirc2.get_parameters.length)) := by
  exact ⟨⟨rfl, rfl, by decide⟩, rfl, by decide⟩

/-- C1 (amended): the backward pass of each bridge invokes the supplied
differentiation rule exactly once — a single batched call, with the keyword
record (hamiltonian, circuit, initial_state, exec_backend, nshots) and no
parameter-index argument — and the rule's returned vector, scaled by the
upstream gradient, is the gradient vector ordered by parameter index. -/
theorem c1_single_batched_call {R M St Init : Type} [Mul R]
    (ctx : TorchCtx R M St Init) (g : R) (rule : DiffRule R M St Init)
    (kwargs : RuleKwargs R M St Init) (g2 : R) :
    (torch_backward ctx g).2 =
      [Event.ruleCall ⟨ctx.observable, ctx.circuit, ctx.initial_state,
        ctx.exec_backend, ctx.nshots⟩] ∧
    (torch_backward ctx g).1.head? =
      some (some ((ctx.differentiation_rule ⟨ctx.observable, ctx.circuit,
        ctx.initial_state, ctx.exec_backend, ctx.nshots⟩).map
          (fun x => g * x))) ∧
    (tf_grad rule kwargs g2).2 = [Event.ruleCall kwargs] ∧
    (tf_grad rule kwargs g2).1 = (rule kwargs).map (fun x => g2 * x) := by
  exact ⟨rfl, rfl, rfl, rfl⟩

/-- C2: for every upstream gradient scalar g and raw rule output r, the
backward output for the parameter input of each bridge is g * r elementwise
(stated both as a map equation and entry by entry). -/
theorem c2_chain_rule {R M St Init : Type} [Mul R]
    (rule : DiffRule R M St Init) (kwargs : RuleKwargs R M St Init)
    (ctx : TorchCtx R M St Init) (g : R) :
    ((tf_grad rule kwargs g).1 = (rule kwargs).map (fun r => g * r) ∧
      ∀ (i : Nat) (x : R), (rule kwargs)[i]? = some x →
        ((tf_grad rule kwargs g).1)[i]? = some (g * x)) ∧
    ((torch_backward ctx g).1.head? =
        some (some ((ctx.differentiation_rule ⟨ctx.observable, ctx.circuit,
          ctx.initial_state, ctx.exec_backend, ctx.nshots⟩).map
            (fun r => g * r))) ∧
      ∀ (i : Nat) (x : R),
        (ctx.differentiation_rule ⟨ctx.observable, ctx.circuit,
          ctx.initial_state, ctx.exec_backend, ctx.nshots⟩)[i]? = some x →
        ((ctx.differentiation_rule ⟨ctx.observable, ctx.circuit,
          ctx.initial_state, ctx.exec_backend, ctx.nshots⟩).map
            (fun r => g * r))[i]? = some (g * x)) := by
  refine ⟨⟨rfl, ?_⟩, rfl, ?_⟩ <;>
    · intro i x h
      simp [tf_grad, List.getElem?_map, h]

/-- C2 witness: upstream gradient g = 2 with the mixed-sign rule output
[0, 1, -1]; entry 2 of the tf bridge gradient is 2 * (-1). -/
theorem c2_chain_rule_witness :
    (cRuleMixed ⟨cObsTF, cCirc2, none, cBackend, none⟩)[2]? = some (-1) ∧
    ((tf_grad cRuleMixed ⟨cObsTF, cCirc2, none, cBackend, none⟩ 2).1)[2]? =
      some (2 * (-1)) := by
  exact ⟨rfl,
    (c2_chain_rule cRuleMixed ⟨cObsTF, cCirc2, none, cBackend, none⟩ cCtx2
      2).1.2 2 (-1) rfl⟩

/-- C6: assuming the rule honours its output contract (one scalar per
trainable parameter), the gradient vector returned by each bridge's backward
has length exactly P = circuit.get_parameters.length (P = 0 gives the empty
vector), and its entry at index i is the upstream scalar times the rule's
entry at i, so the ordering follows the parameter ordering of the circuit's
parameter accessor. -/
theorem c6_gradient_length {R M St Init : Type} [Mul R]
    (ctx : TorchCtx R M St Init) (rule : DiffRule R M St Init)
    (kwargs : RuleKwargs R M St Init) (g g2 : R)
    (hP : (ctx.differentiation_rule ⟨ctx.observable, ctx.circuit,
        ctx.initial_state, ctx.exec_backend, ctx.nshots⟩).length =
      ctx.circuit.get_parameters.length)
    (hT : (rule kwargs).length = kwargs.circuit.get_parameters.length) :
    ((torch_backward ctx g).1.head? =
        some (some ((ctx.differentiation_rule ⟨ctx.observable, ctx.circuit,
          ctx.initial_state, ctx.exec_backend, ctx.nshots⟩).map
            (fun x => g * x))) ∧
      ((ctx.differentiation_rule ⟨ctx.observable, ctx.circuit,
          ctx.initial_state, ctx.exec_backend, ctx.nshots⟩).map
            (fun x => g * x)).length = ctx.circuit.get_parameters.length ∧
      ∀ (i : Nat) (x : R),
        (ctx.differentiation_rule ⟨ctx.observable, ctx.circuit,
          ctx.initial_state, ctx.exec_backend, ctx.nshots⟩)[i]? = some x →
        ((ctx.differentiation_rule ⟨ctx.observable, ctx.circuit,
          ctx.initial_state, ctx.exec_backend, ctx.nshots⟩).map
            (fun x => g * x))[i]? = some (g * x)) ∧
    (tf_grad rule kwargs g2).1.length = kwargs.circuit.get_parameters.length := by
  refine ⟨⟨rfl, ?_, ?_⟩, ?_⟩
  · simpa using hP
  · intro i x h
    simp [List.getElem?_map, h]
  · simpa [tf_grad] using hT

/-- C6 witness: the two-parameter concrete context gives a length-2 gradient
and the zero-parameter concrete context gives the empty gradient vector. -/
theorem c6_gradient_length_witness :
    ((torch_backward cCtx2 1).1.head? = some (some ((cRule2
        ⟨cObsTorch, cCirc2, none, cBackend, none⟩).map (fun x => 1 * x))) ∧
      ((cRule2 ⟨cObsTorch, cCirc2, none, cBackend, none⟩).map
        (fun x => 1 * x)).length = cCirc2.get_parameters.length) ∧
    ((torch_backward cCtx0 1).1.head? = some (some ((cRule0
        ⟨cObsTorch, cCirc0, none, cBackend, some 10⟩).map (fun x => 1 * x))) ∧
      ((cRule0 ⟨cObsTorch, cCirc0, none, cBackend, some 10⟩).map
        (fun x => 1 * x)).length = cCirc0.get_parameters.length) := by
  have h2 := c6_gradient_length cCtx2 cRule2
    ⟨cObsTorch, cCirc2, none, cBackend, none⟩ 1 1 rfl rfl
  have h0 := c6_gradient_length cCtx0 cRule0
    ⟨cObsTorch, cCirc0, none, cBackend, some 10⟩ 1 1 rfl rfl
  exact ⟨⟨h2.1.1, h2.1.2.1⟩, ⟨h0.1.1, h0.1.2.1⟩⟩

/-- C7: the execution context the backward pass hands to the differentiation
rule — nshots, exec_backend, initial_state — is exactly the context the
forward pass executed with: the torch backward's single rule call (on the
context saved by forward) and the tf node's gradient rule call both carry
the same (circuit, initial_state, exec_backend, nshots) as the forward
execution event, including the nshots value that selected the forward
evaluator. -/
theorem c7_context_invariant {R M St Init : Type} [Mul R] (params : List R)
    (observable : Hamiltonian R M) (circuit : Circuit R)
    (initial_state : Option Init) (nshots : Option Int)
    (exec_backend : Backend R M St Init) (rule : DiffRule R M St Init)
    (g g2 : R) :
    (torch_forward params observable circuit initial_state nshots exec_backend
        rule).2 = [Event.execCircuit circuit initial_state nshots] ∧
    (torch_backward (torch_forward params observable circuit initial_state
        nshots exec_backend rule).1.2 g).2 =
      [Event.ruleCall ⟨observable, circuit, initial_state, exec_backend,
        nshots⟩] ∧
    (_with_tf observable circuit initial_state nshots exec_backend rule).2 =
      [Event.execCircuit circuit initial_state nshots] ∧
    ((_with_tf observable circuit initial_state nshots exec_backend
        rule).1.grad g2).2 =
      [Event.ruleCall ⟨observable, circuit, initial_state, exec_backend,
        nshots⟩] := by
  cases nshots <;> exact ⟨rfl, rfl, rfl, rfl⟩

/-- C8: the torch bridge's backward returns one entry per forward input
(seven): the gradient vector for the parameter tensor first, then None for
each of the six non-differentiable inputs. -/
theorem c8_torch_backward_arity {R M St Init : Type} [Mul R]
    (ctx : TorchCtx R M St Init) (g : R) :
    (torch_backward ctx g).1 =
      [some ((ctx.differentiation_rule ⟨ctx.observable, ctx.circuit,
          ctx.initial_state, ctx.exec_backend, ctx.nshots⟩).map
            (fun x => g * x)),
        none, none, none, none, none, none] ∧
    (torch_backward ctx g).1.length = 7 ∧
    (torch_backward ctx g).1.tail = List.replicate 6 none := by
  exact ⟨rfl, rfl, rfl⟩

/-- C9: the forward expectation value of both bridges is computed solely
from the circuit's stored parameters: the parameter tensor handed to the
gradient node is never read, so any two values of that input give the same
forward output (and the same execution events). -/
theorem c9_forward_ignores_params {R M St Init : Type} [Mul R]
    (p1 p2 : List R) (observable : Hamiltonian R M) (circuit : Circuit R)
    (initial_state : Option Init) (nshots : Option Int)
    (exec_backend : Backend R M St Init) (rule : DiffRule R M St Init) :
    (torch_forward p1 observable circuit initial_state nshots exec_backend
        rule).1.1 =
      (torch_forward p2 observable circuit initial_state nshots exec_backend
        rule).1.1 ∧
    (torch_forward p1 observable circuit initial_state nshots exec_backend
        rule).2 =
      (torch_forward p2 observable circuit initial_state nshots exec_backend
        rule).2 ∧
    (tf_expectation p1 observable circuit initial_state nshots exec_backend
        rule).1.value =
      (tf_expectation p2 observable circuit initial_state nshots exec_backend
        rule).1.value ∧
    tf_expectation p1 observable circuit initial_state nshots exec_backend
        rule =
      tf_expectation p2 observable circuit initial_state nshots exec_backend
        rule := by
  cases nshots <;> exact ⟨rfl, rfl, rfl, rfl⟩

/-- C3 counterexample: with `nshots = 0` (and with `nshots = -5`) the
expectation call raises no error at all and backend execution occurs with
that shot count — the module performs no shot-count validation. -/
theorem c3_counterexample :
    expectation cObsNp cCirc2 none (some 0) cBackend none =
      (Except.ok (ExpResult.plain 42),
       [Event.execCircuit cCirc2 none (some 0)]) ∧
    expectation cObsNp cCirc2 none (some (-5)) cBackend none =
      (Except.ok (ExpResult.plain 42),
       [Event.execCircuit cCirc2 none (some (-5))]) := by
  exact ⟨rfl, rfl⟩

/-- C3 (amended): no shot-count validation exists; every supplied `nshots`
value, zero and negative included, is forwarded unchanged to the sampled
evaluator, whose backend execution runs with that shot count, and no error
is raised by this module. -/
theorem c3_no_shot_validation {R M St Init : Type} [Mul R]
    (observable : Hamiltonian R M) (circuit : Circuit R)
    (initial_state : Option Init) (n : Int)
    (exec_backend : Backend R M St Init) :
    expectation observable circuit initial_state (some n) exec_backend none =
      (Except.ok (ExpResult.plain
          (_with_shots observable circuit initial_state n exec_backend).1),
       [Event.execCircuit circuit initial_state (some n)]) := by
  exact rfl

/-- The dispatcher's recognized frontends: the TensorFlow backend and the
PyTorch backend. -/
def Frontend.isSupported : Frontend → Bool
  | Frontend.tensorflow => true
  | Frontend.pytorch => true
  | _ => false

/-- C4: the dispatcher errors exactly when a differentiation rule is
supplied and the observable's owning frontend is neither the TensorFlow nor
the PyTorch backend; in that case it returns the unsupported-interface
error with an empty event log (no backend execution, no gradient node), and
with `differentiation_rule = None` the error is never raised. -/
theorem c4_unsupported_interface {R M St Init : Type} [Mul R]
    (observable : Hamiltonian R M) (circuit : Circuit R)
    (initial_state : Option Init) (nshots : Option Int)
    (exec_backend : Backend R M St Init)
    (dr : Option (DiffRule R M St Init)) :
    ((∃ e, (expectation observable circuit initial_state nshots exec_backend
        dr).1 = Except.error e) ↔
      (dr ≠ none ∧ observable.backend.isSupported = false)) ∧
    (∀ rule : DiffRule R M St Init, observable.backend.isSupported = false →
      expectation observable circuit initial_state nshots exec_backend
          (some rule) =
        (Except.error (QibomlError.interfaceNotSupported observable.backend),
         [])) := by
  obtain ⟨fe, mat⟩ := observable
  cases dr <;> cases fe <;> cases nshots <;>
    simp [expectation, Frontend.isSupported]

/-- C4 witness: a numpy-owned observable with a differentiation rule
supplied yields the unsupported-interface error and the empty event log. -/
theorem c4_unsupported_interface_witness :
    Frontend.isSupported cObsNp.backend = false ∧
    expectation cObsNp cCirc2 none none cBackend (some cRule2) =
      (Except.error (QibomlError.interfaceNotSupported cObsNp.backend),
       []) := by
  exact ⟨rfl,
    (c4_unsupported_interface cObsNp cCirc2 none none cBackend
      (some cRule2)).2 cRule2 rfl⟩

/-- C5: with `differentiation_rule = None` the dispatcher builds no gradient
node and returns exactly the matching evaluator's result: `_exact` when
`nshots` is None, `_with_shots` when `nshots` is a positive integer. -/
theorem c5_dispatch_no_rule {R M St Init : Type} [Mul R]
    (observable : Hamiltonian R M) (circuit : Circuit R)
    (initial_state : Option Init) (exec_backend : Backend R M St Init) :
    (expectation observable circuit initial_state none exec_backend none =
      (Except.ok (ExpResult.plain
          (_exact observable circuit initial_state exec_backend).1),
       (_exact observable circuit initial_state exec_backend).2)) ∧
    (∀ n : Int, 0 < n →
      expectation observable circuit initial_state (some n) exec_backend
          none =
        (Except.ok (ExpResult.plain
            (_with_shots observable circuit initial_state n exec_backend).1),
         (_with_shots observable circuit initial_state n exec_backend).2)) := by
  exact ⟨rfl, fun n _ => rfl⟩

/-- C5 witness: the concrete exact call returns the `_exact` result and the
concrete three-shot call returns the `_with_shots` result. -/
theorem c5_dispatch_no_rule_witness :
    (expectation cObsNp cCirc2 none none cBackend none =
      (Except.ok (ExpResult.plain (_exact cObsNp cCirc2 none cBackend).1),
       (_exact cObsNp cCirc2 none cBackend).2)) ∧
    (0 : Int) < 3 ∧
    (expectation cObsNp cCirc2 none (some 3) cBackend none =
      (Except.ok (ExpResult.plain
          (_with_shots cObsNp cCirc2 none 3 cBackend).1),
       (_with_shots cObsNp cCirc2 none 3 cBackend).2)) := by
  exact ⟨(c5_dispatch_no_rule cObsNp cCirc2 none cBackend).1, by decide,
    (c5_dispatch_no_rule cObsNp cCirc2 none cBackend).2 3 (by decide)⟩

/-- The qubit-check loop of `Model.__init__` succeeds exactly when every
later layer has the first layer's qubit count. -/
theorem Keras.checkQubits_ok_iff {R : Type} (expected : Nat)
    (ls : List (Keras.Layer R)) :
    Keras.checkQubits expected ls = Except.ok () ↔
      ∀ l ∈ ls, l.nqubits = expected := by
  induction ls with
  | nil => simp [Keras.checkQubits]
  | cons l rest ih =>
    by_cases h : l.nqubits = expected
    · simp [Keras.checkQubits, h, ih]
    · simp [Keras.checkQubits, h]

/-- C10: the Keras Model constructor accepts a layer list exactly when every
layer has the first layer's qubit count and the final layer is a decoding
layer (each violation raises RuntimeError); `call` applies the forward of
every layer except the last, in order, and never invokes the final layer —
its output does not depend on the last layer at all. -/
theorem c10_keras_call_skips_last {R : Type} (l0 : Keras.Layer R)
    (rest front : List (Keras.Layer R)) (lastA lastB : Keras.Layer R)
    (x : List R) :
    ((∃ m, Keras.Model.init (l0 :: rest) = Except.ok m) ↔
      ((∀ l ∈ rest, l.nqubits = l0.nqubits) ∧
        ((l0 :: rest).getLast (List.cons_ne_nil l0 rest)).isDecoding =
          true)) ∧
    (Keras.Model.call ⟨front ++ [lastA]⟩ x =
      front.foldl (fun acc l => l.forward acc) x) ∧
    (Keras.Model.call ⟨front ++ [lastA]⟩ x =
      Keras.Model.call ⟨front ++ [lastB]⟩ x) := by
  refine ⟨?_, ?_, ?_⟩
  · rcases h : Keras.checkQubits l0.nqubits rest with e | u
    · constructor
      · intro ⟨m, hm⟩
        simp [Keras.Model.init, h] at hm
      · intro ⟨hall, _⟩
        rw [(Keras.checkQubits_ok_iff l0.nqubits rest).mpr hall] at h
        exact absurd h (by simp)
    · have hall := (Keras.checkQubits_ok_iff l0.nqubits rest).mp
        (by rw [h])
      by_cases hd :
          ((l0 :: rest).getLast (List.cons_ne_nil l0 rest)).isDecoding = true
      · constructor
        · intro _
          exact ⟨hall, hd⟩
        · intro _
          exact ⟨⟨l0 :: rest⟩, by simp [Keras.Model.init, h, hd]⟩
      · simp [Keras.Model.init, h, hd, hall]
  · simp [Keras.Model.call, List.dropLast_concat]
  · simp [Keras.Model.call, List.dropLast_concat]

/-- C10 witness: a one-qubit encoding layer followed by a one-qubit decoding
layer is accepted, and `call` applies only the first layer's forward,
independently of which decoding layer sits last. -/
theorem c10_keras_call_skips_last_witness :
    ((∃ m, Keras.Model.init
        [(⟨1, fun v => v.map (fun y => y + 1), false⟩ : Keras.Layer Int),
         ⟨1, id, true⟩] = Except.ok m) ↔
      ((∀ l ∈ [(⟨1, id, true⟩ : Keras.Layer Int)], l.nqubits = 1) ∧
        (([(⟨1, fun v => v.map (fun y => y + 1), false⟩ : Keras.Layer Int),
            ⟨1, id, true⟩].getLast (List.cons_ne_nil _ _)).isDecoding =
          true))) ∧
    (Keras.Model.call
        ⟨[(⟨1, fun v => v.map (fun y => y + 1), false⟩ : Keras.Layer Int)] ++
          [⟨1, id, true⟩]⟩ [0] =
      [(⟨1, fun v => v.map (fun y => y + 1), false⟩ : Keras.Layer Int)].foldl
        (fun acc l => l.forward acc) [0]) ∧
    (Keras.Model.call
        ⟨[(⟨1, fun v => v.map (fun y => y + 1), false⟩ : Keras.Layer Int)] ++
          [⟨1, id, true⟩]⟩ [0] =
      Keras.Model.call
        ⟨[(⟨1, fun v => v.map (fun y => y + 1), false⟩ : Keras.Layer Int)] ++
          [⟨1, fun v => v.map (fun y => y * 7), true⟩]⟩ [0]) := by
  exact c10_keras_call_skips_last
    (⟨1, fun v => v.map (fun y => y + 1), false⟩ : Keras.Layer Int)
    [⟨1, id, true⟩]
    [(⟨1, fun v => v.map (fun y => y + 1), false⟩ : Keras.Layer Int)]
    ⟨1, id, true⟩ ⟨1, fun v => v.map (fun y => y * 7), true⟩ [0]
